import Mathlib

/-!
Shallow embedding of the HealthMap Flask service (`api.py`) and proofs of
the specification claims about it.

The repository is a thin orchestration layer: `create_map` receives a
multipart upload, saves it under `uploads/`, parses it as CSV via pandas,
checks four required columns, renders a folium map via
`generate_health_map`, deletes the upload and answers with the map URL;
`get_map` serves a generated artifact from `generated_maps/`.

Third-party library behaviour that the repository merely invokes is kept
abstract, passed in as explicit function parameters:
  * `secure`  models `werkzeug.utils.secure_filename`;
  * `read_csv` models `pandas.read_csv` on the stored file's bytes,
    returning either a dataframe or the raised exception's text;
  * `html` models folium's serialization of the composed map to HTML.
Everything the repository itself does (control flow, branch conditions,
error messages, filesystem writes and deletes, the map-spec data passed to
folium, the timestamped artifact name) is modelled concretely from the
source. Machine floats are modelled as rationals.
-/

namespace HealthMap

/-! ## Filesystem model

A flat store of paths. A path can hold a regular file with string
contents, or a directory (needed to model `send_file` raising
`IsADirectoryError`, which is not a `FileNotFoundError`). -/

inductive FsNode where
  | file (content : String)
  | dir
  deriving DecidableEq, Repr

/-- The filesystem: an association list from path to node; the first
binding for a path is the current one. -/
abbrev Fs := List (String × FsNode)

/-- Look up the node stored at a path. -/
def fsGet (fs : Fs) (p : String) : Option FsNode := fs.lookup p

/-- Write (create or overwrite) a node at a path. -/
def fsWrite (fs : Fs) (p : String) (n : FsNode) : Fs := (p, n) :: fs

/-- Delete every binding of a path (models `os.remove`). -/
def fsRemove (fs : Fs) (p : String) : Fs := fs.filter (fun kv => ¬ kv.1 = p)

/-- `os.path.join` for the simple relative components used in `api.py`. -/
def pathJoin (a b : String) : String := a ++ "/" ++ b

def UPLOAD_FOLDER : String := "uploads"
def MAPS_FOLDER : String := "generated_maps"

/-! ## Dataframe model

`pd.read_csv` yields a dataframe; the code reads its `.columns`, its
`latitude`/`longitude` series (`.mean()`, `points_from_xy`) and iterates
its rows. Cells are either numbers (modelled as `ℚ`) or strings; numeric
operations on string cells raise, which the model surfaces as
`Except.error` carrying the exception text. -/

inductive Cell where
  | num (q : ℚ)
  | str (s : String)
  deriving DecidableEq, Repr

/-- A dataframe: column names, and rows as (column ↦ cell) bindings. -/
structure Df where
  cols : List String
  rows : List (List (String × Cell))
  deriving DecidableEq, Repr

/-- A single quote character, used in Python `repr`/message text. -/
def sq : String := String.singleton (Char.ofNat 39)

/-- `row[name]` on a pandas row: the cell, or a raised `KeyError`. -/
def rowGet (row : List (String × Cell)) (name : String) : Except String Cell :=
  match row.lookup name with
  | some c => .ok c
  | none => .error ("KeyError: " ++ sq ++ name ++ sq)

/-- Interpret a cell as a float; a string cell raises. -/
def cellFloat : Cell → Except String ℚ
  | .num q => .ok q
  | .str s => .error ("could not convert string to float: " ++ sq ++ s ++ sq)

/-- Render a cell into interpolated text (f-string). -/
def cellStr : Cell → String
  | .num q => toString q
  | .str s => s

/-- `df[name]`: the column's cells, or a raised `KeyError`. -/
def colGet (df : Df) (name : String) : Except String (List Cell) :=
  df.rows.mapM (fun r => rowGet r name)

/-- `df[name].mean()`: the arithmetic mean of the column's values;
raises when the column is missing or holds a non-numeric cell. -/
def seriesMean (df : Df) (name : String) : Except String ℚ :=
  match colGet df name with
  | .error e => .error e
  | .ok cells =>
    match cells.mapM cellFloat with
    | .error e => .error e
    | .ok qs => .ok (qs.sum / (qs.length : ℚ))

/-! ## The map renderer (`generate_health_map`) -/

/-- The arguments `api.py` passes to `folium.Choropleth`. -/
structure ChoroplethSpec where
  columns : List String
  key_on : String
  fill_color : String
  fill_opacity : ℚ
  line_opacity : ℚ
  legend_name : String
  deriving DecidableEq, Repr

/-- One `folium.Marker`: the raw location cells and the popup text. -/
structure MarkerSpec where
  location : Cell × Cell
  popup : String
  deriving DecidableEq, Repr

/-- Everything `api.py` hands to folium for one map: the `folium.Map`
center and zoom, the point geometry from `points_from_xy`, the choropleth
configuration and the markers. -/
structure MapSpec where
  location : ℚ × ℚ
  zoom_start : Nat
  geometry : List (ℚ × ℚ)
  choropleth : ChoroplethSpec
  markers : List MarkerSpec
  deriving DecidableEq, Repr

/-- The popup f-string of `generate_health_map`, with
`row.get('additional_info', 'N/A')` defaulting. -/
def popupContent (row : List (String × Cell)) : Except String String := do
  let region ← rowGet row "region"
  let metric ← rowGet row "health_metric"
  let info := match row.lookup "additional_info" with
    | some c => cellStr c
    | none => "N/A"
  pure ("Region: " ++ cellStr region ++ "<br> Health Metric: " ++ cellStr metric
        ++ "<br> Additional Info: " ++ info)

/-- One marker of the `df.iterrows()` loop. -/
def markerOf (row : List (String × Cell)) : Except String MarkerSpec := do
  let popup ← popupContent row
  let lat ← rowGet row "latitude"
  let lon ← rowGet row "longitude"
  pure { location := (lat, lon), popup := popup }

/-! ### The timestamped filename -/

/-- One date/time instant, `datetime.now()`. -/
structure DateTime where
  year : Nat
  month : Nat
  day : Nat
  hour : Nat
  minute : Nat
  second : Nat
  deriving DecidableEq, Repr

/-- The decimal digit character of `n % 10`. -/
def digitChar (n : Nat) : Char := Char.ofNat (48 + n % 10)

/-- Two-digit zero-padded decimal (strftime `%m`, `%d`, `%H`, `%M`, `%S`). -/
def pad2 (n : Nat) : String := String.mk [digitChar (n / 10), digitChar n]

/-- Four-digit zero-padded decimal (strftime `%Y` for years up to 9999). -/
def pad4 (n : Nat) : String :=
  String.mk [digitChar (n / 1000), digitChar (n / 100), digitChar (n / 10), digitChar n]

/-- `datetime.strftime('%Y%m%d_%H%M%S')`. -/
def strftimeTs (t : DateTime) : String :=
  pad4 t.year ++ pad2 t.month ++ pad2 t.day ++ "_"
    ++ pad2 t.hour ++ pad2 t.minute ++ pad2 t.second

/-- `generate_health_map(df)`: compute the map center from the column
means, build geometry, choropleth and markers, save the serialized map
under a timestamped name in `generated_maps/`, and return the filename
(together with the map-spec handed to folium and the updated
filesystem). Any raised exception text propagates as `Except.error`. -/
def generate_health_map (html : Df → MapSpec → String) (df : Df) (now : DateTime)
    (fs : Fs) : Except String (String × MapSpec × Fs) :=
  match seriesMean df "latitude" with
  | .error e => .error e
  | .ok latMean =>
    match seriesMean df "longitude" with
    | .error e => .error e
    | .ok lonMean =>
      match colGet df "longitude" with
      | .error e => .error e
      | .ok lonCells =>
        match colGet df "latitude" with
        | .error e => .error e
        | .ok latCells =>
          match lonCells.mapM cellFloat with
          | .error e => .error e
          | .ok xs =>
            match latCells.mapM cellFloat with
            | .error e => .error e
            | .ok ys =>
              match df.rows.mapM markerOf with
              | .error e => .error e
              | .ok markers =>
                let choropleth : ChoroplethSpec :=
                  { columns := ["region", "health_metric"]
                    key_on := "feature.properties.region"
                    fill_color := "YlOrRd"
                    fill_opacity := 7 / 10
                    line_opacity := 2 / 10
                    legend_name := "Health Metric" }
                let spec : MapSpec :=
                  { location := (latMean, lonMean)
                    zoom_start := 4
                    geometry := xs.zip ys
                    choropleth := choropleth
                    markers := markers }
                let timestamp := strftimeTs now
                let filename := "health_map_" ++ timestamp ++ ".html"
                let filepath := pathJoin MAPS_FOLDER filename
                .ok (filename, spec, fsWrite fs filepath (.file (html df spec)))

/-! ## The HTTP layer -/

/-- An uploaded multipart file. -/
structure UploadedFile where
  filename : String
  content : String
  deriving DecidableEq, Repr

/-- The request as `create_map` sees it: the multipart file fields. -/
structure Request where
  files : List (String × UploadedFile)
  deriving DecidableEq, Repr

/-- A JSON (or file) response body. -/
inductive Body where
  | errJson (msg : String)
  | okJson (map_url : String)
  | fileBody (content : String) (mimetype : String)
  deriving DecidableEq, Repr

/-- An HTTP response: status code and body. -/
structure Response where
  status : Nat
  body : Body
  deriving DecidableEq, Repr

/-- Observable side-effect events of one `create_map` call, in order. -/
inductive Ev where
  | saveUpload
  | parseCsv
  | renderMap
  | removeUpload
  deriving DecidableEq, Repr

def required_columns : List String := ["latitude", "longitude", "region", "health_metric"]

/-- Python `repr` of the `required_columns` list, as interpolated into the
missing-columns message. -/
def pyListRepr (l : List String) : String :=
  "[" ++ String.intercalate ", " (l.map (fun s => sq ++ s ++ sq)) ++ "]"

/-- The 400 message for missing columns:
`f'Missing required columns. Required: {required_columns}'`. -/
def missingColsMsg : String :=
  "Missing required columns. Required: " ++ pyListRepr required_columns

/-- `POST /api/generate-map` (`create_map` in `api.py`): reject a missing
or empty-named file with 400; save the upload; parse it as CSV; reject
missing required columns with 400; render the map; delete the upload;
answer 200 with the map URL. Exceptions from parsing or rendering become
500 with the exception text. Returns the response, the final filesystem
and the ordered side-effect trace. -/
def create_map (secure : String → String) (read_csv : String → Except String Df)
    (html : Df → MapSpec → String) (now : DateTime) (req : Request) (fs : Fs) :
    Response × Fs × List Ev :=
  match req.files.lookup "file" with
  | none => (⟨400, .errJson "No file provided"⟩, fs, [])
  | some f =>
    if f.filename = "" then
      (⟨400, .errJson "No selected file"⟩, fs, [])
    else
      let filename := secure f.filename
      let filepath := pathJoin UPLOAD_FOLDER filename
      let fs1 := fsWrite fs filepath (.file f.content)
      match fsGet fs1 filepath with
      | some (.file content) =>
        match read_csv content with
        | .error e =>
          (⟨500, .errJson ("Error processing file: " ++ e)⟩, fs1, [.saveUpload, .parseCsv])
        | .ok df =>
          if required_columns.all (fun c => df.cols.contains c) then
            match generate_health_map html df now fs1 with
            | .error e =>
              (⟨500, .errJson ("Error processing file: " ++ e)⟩, fs1,
                [.saveUpload, .parseCsv, .renderMap])
            | .ok (map_filename, _spec, fs2) =>
              (⟨200, .okJson ("/api/maps/" ++ map_filename)⟩, fsRemove fs2 filepath,
                [.saveUpload, .parseCsv, .renderMap, .removeUpload])
          else
            (⟨400, .errJson missingColsMsg⟩, fs1, [.saveUpload, .parseCsv])
      | _ =>
        (⟨500, .errJson "Server error: unreadable upload"⟩, fs1, [.saveUpload])

/-- An exception escaping a handler (anything but the `FileNotFoundError`
that `get_map` catches). -/
inductive PyErr where
  | other (name : String)
  deriving DecidableEq, Repr

/-- `GET /api/maps/<filename>` (`get_map` in `api.py`): `send_file` the
artifact as `text/html`; a `FileNotFoundError` is caught and mapped to a
404 JSON body; any other exception (here: the path holds a directory)
propagates out of the handler. -/
def get_map (fs : Fs) (filename : String) : Except PyErr Response :=
  match fsGet fs (pathJoin MAPS_FOLDER filename) with
  | some (.file c) => .ok ⟨200, .fileBody c "text/html"⟩
  | some .dir => .error (.other "IsADirectoryError")
  | none => .ok ⟨404, .errJson "Map not found"⟩

instance {α β : Type} [DecidableEq α] [DecidableEq β] : DecidableEq (Except α β) := fun a b =>
  match a, b with
  | .ok x, .ok y => decidable_of_iff (x = y) (by simp)
  | .error x, .error y => decidable_of_iff (x = y) (by simp)
  | .ok _, .error _ => isFalse (by simp)
  | .error _, .ok _ => isFalse (by simp)

/-- Substring containment on strings, as character-list infix. -/
def strContains (s sub : String) : Prop := sub.data <:+: s.data

instance (s sub : String) : Decidable (strContains s sub) :=
  inferInstanceAs (Decidable (sub.data <:+: s.data))

/-- The required columns absent from a dataframe. -/
def missingCols (df : Df) : List String :=
  required_columns.filter (fun c => ¬ df.cols.contains c)

/-- The reading of claim C1 under test: the message names exactly the
missing columns — a required column's name occurs in the message precisely
when that column is missing. -/
def msgNamesSet (msg : String) (cols : List String) : Prop :=
  ∀ c ∈ required_columns, (strContains msg c ↔ c ∈ cols)

instance (msg : String) (cols : List String) : Decidable (msgNamesSet msg cols) :=
  inferInstanceAs (Decidable (∀ c ∈ required_columns, (strContains msg c ↔ c ∈ cols)))

/-! ## Concrete instances used by witnesses and counterexamples -/

/-- A sanitizer for witnesses: the identity (a valid `secure_filename`
behaviour on already-clean names). -/
def idSecure : String → String := fun s => s

/-- A serializer for witnesses: constant empty document. -/
def emptyHtml : Df → MapSpec → String := fun _ _ => ""

/-- A CSV parser oracle returning a fixed dataframe. -/
def csvConst (df : Df) : String → Except String Df := fun _ => .ok df

/-- A CSV parser oracle that raises with a fixed message. -/
def csvFail (e : String) : String → Except String Df := fun _ => .error e

/-- A dataframe with all four required columns and no rows. -/
def dfAll : Df := ⟨required_columns, []⟩

/-- A dataframe lacking exactly the `health_metric` column. -/
def dfMissing : Df := ⟨["latitude", "longitude", "region"], []⟩

/-- A one-row dataframe with the end-to-end example values of the spec. -/
def df1 : Df :=
  ⟨required_columns,
    [[("latitude", .num 40), ("longitude", .num (-75)),
      ("region", .str "East"), ("health_metric", .num 5)]]⟩

/-- A request carrying one file field. -/
def reqOne : Request := ⟨[("file", ⟨"a.csv", "x"⟩)]⟩

/-- A request with no file field. -/
def reqNone : Request := ⟨[]⟩

/-- A request whose file field has an empty filename. -/
def reqEmptyName : Request := ⟨[("file", ⟨"", "x"⟩)]⟩

/-- A fixed instant for witnesses. -/
def now0 : DateTime := ⟨2026, 10, 12, 3, 4, 5⟩

/-! ## Helper lemmas -/

theorem fsGet_fsWrite_self (fs : Fs) (p : String) (n : FsNode) :
    fsGet (fsWrite fs p n) p = some n := by
  simp [fsGet, fsWrite, List.lookup_cons_self]

/-- The appended text on the right is contained in the concatenation. -/
theorem strContains_append_right (p e : String) : strContains (p ++ e) e := by
  unfold strContains
  rw [String.data_append]
  exact (List.suffix_append p.data e.data).isInfix

/-! ## Claims about the fetch endpoint -/

/-- Claim C7: for every filename with nothing stored at
`generated_maps/<filename>`, `get_map` returns 404 with a not-found error
body. -/
theorem get_map_not_found_404 (fs : Fs) (filename : String)
    (h : fsGet fs (pathJoin MAPS_FOLDER filename) = none) :
    get_map fs filename = .ok ⟨404, .errJson "Map not found"⟩ := by
  unfold get_map
  rw [h]

theorem get_map_not_found_404_witness :
    get_map [] "nope.html" = .ok ⟨404, .errJson "Map not found"⟩ :=
  get_map_not_found_404 [] "nope.html" (by decide)

/-- Claim C8: fetching an artifact is a pure read of the stored file: the
response depends only on the node stored at `generated_maps/<filename>`
(so two fetches with no intervening write to that file answer
identically), the handler performs no state change (its result carries no
filesystem update), and on success the returned body is exactly the
stored bytes. -/
theorem get_map_pure_read (fs fs2 : Fs) (filename : String)
    (h : fsGet fs (pathJoin MAPS_FOLDER filename)
          = fsGet fs2 (pathJoin MAPS_FOLDER filename)) :
    get_map fs filename = get_map fs2 filename ∧
    ∀ c : String, fsGet fs (pathJoin MAPS_FOLDER filename) = some (.file c) →
      get_map fs filename = .ok ⟨200, .fileBody c "text/html"⟩ := by
  constructor
  · unfold get_map
    rw [h]
  · intro c hc
    unfold get_map
    rw [hc]

theorem get_map_pure_read_witness :
    get_map [("generated_maps/m.html", .file "BODY")] "m.html"
        = get_map [("generated_maps/m.html", .file "BODY"), ("uploads/a.csv", .file "x")] "m.html"
      ∧ ∀ c : String,
        fsGet [("generated_maps/m.html", FsNode.file "BODY")] (pathJoin MAPS_FOLDER "m.html")
            = some (.file c) →
          get_map [("generated_maps/m.html", FsNode.file "BODY")] "m.html"
            = .ok ⟨200, .fileBody c "text/html"⟩ :=
  get_map_pure_read [("generated_maps/m.html", .file "BODY")]
    [("generated_maps/m.html", .file "BODY"), ("uploads/a.csv", .file "x")] "m.html" (by decide)

/-- Claim C10: `get_map` catches only `FileNotFoundError`; when the path
`generated_maps/<filename>` holds a directory, the raised exception
propagates out of the handler instead of becoming a 404 or JSON
response. -/
theorem get_map_dir_propagates (fs : Fs) (filename : String)
    (h : fsGet fs (pathJoin MAPS_FOLDER filename) = some .dir) :
    get_map fs filename = .error (.other "IsADirectoryError") := by
  unfold get_map
  rw [h]

theorem get_map_dir_propagates_witness :
    get_map [("generated_maps/sub", .dir)] "sub" = .error (.other "IsADirectoryError") :=
  get_map_dir_propagates [("generated_maps/sub", .dir)] "sub" (by decide)

/-! ## Claims about the generate endpoint -/

/-- Claim C2: when the multipart field `file` is absent or carries an
empty filename, `create_map` answers 400, the filesystem is unchanged (no
file saved), and the side-effect trace is empty (in particular no CSV
parsing happened before the return). -/
theorem create_map_no_file_400 (secure : String → String)
    (read_csv : String → Except String Df) (html : Df → MapSpec → String)
    (now : DateTime) (req : Request) (fs : Fs)
    (h : req.files.lookup "file" = none ∨
      ∃ f, req.files.lookup "file" = some f ∧ f.filename = "") :
    (create_map secure read_csv html now req fs).1.status = 400 ∧
    (create_map secure read_csv html now req fs).2.1 = fs ∧
    (create_map secure read_csv html now req fs).2.2 = [] := by
  rcases h with h | ⟨f, hf, hname⟩
  · unfold create_map; rw [h]; exact ⟨rfl, rfl, rfl⟩
  · unfold create_map; rw [hf]; simp [hname]

/-- Claim C3: the uploaded file is deleted exactly when map generation
succeeds — the `os.remove` side effect occurs during the call (so before
the success response is returned) if and only if the response is the 200
success; on every parse, missing-column or render failure after the save,
the upload is never deleted. -/
theorem upload_removed_iff_success (secure : String → String)
    (read_csv : String → Except String Df) (html : Df → MapSpec → String)
    (now : DateTime) (req : Request) (fs : Fs) :
    Ev.removeUpload ∈ (create_map secure read_csv html now req fs).2.2 ↔
      (create_map secure read_csv html now req fs).1.status = 200 := by
  unfold create_map
  cases hl : req.files.lookup "file" with
  | none => simp
  | some f =>
    by_cases hf : f.filename = ""
    · simp [hf]
    · simp only [hf, if_false, fsGet_fsWrite_self]
      cases hcsv : read_csv f.content with
      | error e => simp
      | ok df =>
        simp only []
        by_cases hall : (required_columns.all fun c => df.cols.contains c) = true
        · rw [if_pos hall]
          cases hgen : generate_health_map html df now
              (fsWrite fs (pathJoin UPLOAD_FOLDER (secure f.filename)) (.file f.content)) with
          | error e => simp
          | ok r =>
            obtain ⟨mfn, spec, fs2⟩ := r
            simp
        · rw [if_neg hall]
          simp

/-- Shared shape lemma: with a file present, a nonempty filename, a CSV
that parses, and at least one required column missing, `create_map`
returns the constant missing-columns 400 response, leaves the saved
upload written at `uploads/<secure name>`, and its trace is save-then-
parse with no removal. -/
theorem create_map_missing_cols_eq (secure : String → String)
    (read_csv : String → Except String Df) (html : Df → MapSpec → String)
    (now : DateTime) (req : Request) (fs : Fs) (f : UploadedFile) (df : Df)
    (hl : req.files.lookup "file" = some f) (hf : f.filename ≠ "")
    (hcsv : read_csv f.content = .ok df)
    (hmiss : ∃ c ∈ required_columns, c ∉ df.cols) :
    create_map secure read_csv html now req fs =
      (⟨400, .errJson missingColsMsg⟩,
        fsWrite fs (pathJoin UPLOAD_FOLDER (secure f.filename)) (.file f.content),
        [.saveUpload, .parseCsv]) := by
  have hall : (required_columns.all fun c => df.cols.contains c) = false := by
    rw [List.all_eq_false]
    rcases hmiss with ⟨c, hc, hnc⟩
    exact ⟨c, hc, by simpa using hnc⟩
  have hnall : ¬ ((required_columns.all fun c => df.cols.contains c) = true) := by
    rw [hall]; exact Bool.false_ne_true
  unfold create_map
  rw [hl]
  simp only []
  rw [if_neg hf]
  simp only [fsGet_fsWrite_self]
  rw [hcsv]
  simp only []
  rw [if_neg hnall]

set_option maxRecDepth 8000 in
/-- Every required column's name occurs verbatim in the constant
missing-columns message. -/
theorem required_named_in_msg : ∀ c ∈ required_columns, strContains missingColsMsg c := by
  decide

set_option maxRecDepth 8000 in
/-- Claim C1 counterexample: for an upload whose table has columns
`latitude`, `longitude`, `region` (so exactly `health_metric` is
missing), the endpoint does answer 400, but the error message does not
name the set of missing columns: the set of required-column names
occurring in the message is the full required set, not the missing set
(`region`, for instance, is named yet not missing). -/
theorem missing_cols_msg_not_missing_set :
    (create_map idSecure (csvConst dfMissing) emptyHtml now0 reqOne []).1
        = ⟨400, .errJson missingColsMsg⟩ ∧
    ¬ msgNamesSet missingColsMsg (missingCols dfMissing) := by
  constructor
  · decide
  · decide

/-- Claim C1 as amended: for every uploaded CSV that parses as a table
but lacks at least one required column, the endpoint returns 400 with the
fixed error message enumerating the full required column set — so every
missing column is named in it (alongside the present ones). -/
theorem missing_cols_400_names_required (secure : String → String)
    (read_csv : String → Except String Df) (html : Df → MapSpec → String)
    (now : DateTime) (req : Request) (fs : Fs) (f : UploadedFile) (df : Df)
    (hl : req.files.lookup "file" = some f) (hf : f.filename ≠ "")
    (hcsv : read_csv f.content = .ok df)
    (hmiss : ∃ c ∈ required_columns, c ∉ df.cols) :
    (create_map secure read_csv html now req fs).1 = ⟨400, .errJson missingColsMsg⟩ ∧
    (∀ c ∈ required_columns, strContains missingColsMsg c) ∧
    ∀ c ∈ missingCols df, strContains missingColsMsg c := by
  rw [create_map_missing_cols_eq secure read_csv html now req fs f df hl hf hcsv hmiss]
  refine ⟨rfl, required_named_in_msg, ?_⟩
  intro c hc
  exact required_named_in_msg c (List.filter_subset' required_columns hc)

theorem missing_cols_400_names_required_witness :
    (create_map idSecure (csvConst dfMissing) emptyHtml now0 reqOne []).1
        = ⟨400, .errJson missingColsMsg⟩ ∧
    (∀ c ∈ required_columns, strContains missingColsMsg c) ∧
    ∀ c ∈ missingCols dfMissing, strContains missingColsMsg c :=
  missing_cols_400_names_required idSecure (csvConst dfMissing) emptyHtml now0 reqOne []
    ⟨"a.csv", "x"⟩ dfMissing (by decide) (by decide) rfl
    ⟨"health_metric", by decide, by decide⟩

/-- Claim C9: on the missing-columns 400 return (a plain return, not a
raised exception), the already-saved upload is left on disk under the
uploads directory — the cleanup deletion never runs on that path. -/
theorem missing_cols_upload_left_on_disk (secure : String → String)
    (read_csv : String → Except String Df) (html : Df → MapSpec → String)
    (now : DateTime) (req : Request) (fs : Fs) (f : UploadedFile) (df : Df)
    (hl : req.files.lookup "file" = some f) (hf : f.filename ≠ "")
    (hcsv : read_csv f.content = .ok df)
    (hmiss : ∃ c ∈ required_columns, c ∉ df.cols) :
    (create_map secure read_csv html now req fs).1.status = 400 ∧
    fsGet (create_map secure read_csv html now req fs).2.1
        (pathJoin UPLOAD_FOLDER (secure f.filename)) = some (.file f.content) ∧
    Ev.removeUpload ∉ (create_map secure read_csv html now req fs).2.2 := by
  rw [create_map_missing_cols_eq secure read_csv html now req fs f df hl hf hcsv hmiss]
  refine ⟨rfl, ?_, by simp⟩
  exact fsGet_fsWrite_self ..

theorem missing_cols_upload_left_on_disk_witness :
    (create_map idSecure (csvConst dfMissing) emptyHtml now0 reqOne []).1.status = 400 ∧
    fsGet (create_map idSecure (csvConst dfMissing) emptyHtml now0 reqOne []).2.1
        (pathJoin UPLOAD_FOLDER (idSecure "a.csv")) = some (.file "x") ∧
    Ev.removeUpload ∉ (create_map idSecure (csvConst dfMissing) emptyHtml now0 reqOne []).2.2 :=
  missing_cols_upload_left_on_disk idSecure (csvConst dfMissing) emptyHtml now0 reqOne []
    ⟨"a.csv", "x"⟩ dfMissing (by decide) (by decide) rfl
    ⟨"health_metric", by decide, by decide⟩

/-- Claim C6: any exception raised while parsing the stored CSV or while
rendering the map surfaces as a 500 response whose JSON error message is
the `Error processing file: ` prefix followed by — and hence containing —
the raw exception text. -/
theorem processing_error_500_raw_text (secure : String → String)
    (read_csv : String → Except String Df) (html : Df → MapSpec → String)
    (now : DateTime) (req : Request) (fs : Fs) (f : UploadedFile) (e : String)
    (hl : req.files.lookup "file" = some f) (hf : f.filename ≠ "")
    (herr : read_csv f.content = .error e ∨
      ∃ df, read_csv f.content = .ok df ∧
        (required_columns.all fun c => df.cols.contains c) = true ∧
        generate_health_map html df now
          (fsWrite fs (pathJoin UPLOAD_FOLDER (secure f.filename)) (.file f.content))
          = .error e) :
    (create_map secure read_csv html now req fs).1.status = 500 ∧
    (create_map secure read_csv html now req fs).1.body
        = .errJson ("Error processing file: " ++ e) ∧
    strContains ("Error processing file: " ++ e) e := by
  unfold create_map
  rw [hl]
  simp only []
  rw [if_neg hf]
  simp only [fsGet_fsWrite_self]
  rcases herr with hcsv | ⟨df, hcsv, hall, hgen⟩
  · rw [hcsv]
    exact ⟨rfl, rfl, strContains_append_right _ _⟩
  · rw [hcsv]
    simp only []
    rw [if_pos hall, hgen]
    exact ⟨rfl, rfl, strContains_append_right _ _⟩

theorem processing_error_500_raw_text_witness :
    (create_map idSecure (csvFail "boom") emptyHtml now0 reqOne []).1.status = 500 ∧
    (create_map idSecure (csvFail "boom") emptyHtml now0 reqOne []).1.body
        = .errJson ("Error processing file: " ++ "boom") ∧
    strContains ("Error processing file: " ++ "boom") "boom" :=
  processing_error_500_raw_text idSecure (csvFail "boom") emptyHtml now0 reqOne []
    ⟨"a.csv", "x"⟩ "boom" (by decide) (by decide) (Or.inl rfl)

theorem create_map_no_file_400_witness :
    ((create_map idSecure (csvConst dfAll) emptyHtml now0 reqNone []).1.status = 400 ∧
     (create_map idSecure (csvConst dfAll) emptyHtml now0 reqNone []).2.1 = [] ∧
     (create_map idSecure (csvConst dfAll) emptyHtml now0 reqNone []).2.2 = []) ∧
    ((create_map idSecure (csvConst dfAll) emptyHtml now0 reqEmptyName []).1.status = 400 ∧
     (create_map idSecure (csvConst dfAll) emptyHtml now0 reqEmptyName []).2.1 = [] ∧
     (create_map idSecure (csvConst dfAll) emptyHtml now0 reqEmptyName []).2.2 = []) :=
  ⟨create_map_no_file_400 idSecure (csvConst dfAll) emptyHtml now0 reqNone []
      (Or.inl (by decide)),
   create_map_no_file_400 idSecure (csvConst dfAll) emptyHtml now0 reqEmptyName []
      (Or.inr ⟨⟨"", "x"⟩, by decide, rfl⟩)⟩

/-! ## Digit and padding lemmas for the timestamped filename -/

theorem isDigit_digitChar (n : Nat) : (digitChar n).isDigit = true := by
  have h : n % 10 < 10 := Nat.mod_lt _ (by omega)
  unfold digitChar
  set m := n % 10 with hm
  interval_cases m <;> decide

theorem pad2_data (n : Nat) : (pad2 n).data = [digitChar (n / 10), digitChar n] := rfl

theorem pad4_data (n : Nat) :
    (pad4 n).data
      = [digitChar (n / 1000), digitChar (n / 100), digitChar (n / 10), digitChar n] := rfl

theorem pad2_all_digits (n : Nat) : ∀ c ∈ (pad2 n).data, c.isDigit = true := by
  intro c hc
  rw [pad2_data] at hc
  simp only [List.mem_cons, List.not_mem_nil, or_false] at hc
  rcases hc with h | h <;> subst h <;> exact isDigit_digitChar _

theorem pad4_all_digits (n : Nat) : ∀ c ∈ (pad4 n).data, c.isDigit = true := by
  intro c hc
  rw [pad4_data] at hc
  simp only [List.mem_cons, List.not_mem_nil, or_false] at hc
  rcases hc with h | h | h | h <;> subst h <;> exact isDigit_digitChar _

theorem pad2_length (n : Nat) : (pad2 n).length = 2 := rfl

theorem pad4_length (n : Nat) : (pad4 n).length = 4 := rfl

/-- Helper: a successful `generate_health_map` returns exactly the
timestamped artifact name `health_map_<strftime>.html`. -/
theorem generate_filename (html : Df → MapSpec → String) (df : Df) (now : DateTime)
    (fs : Fs) (fn : String) (spec : MapSpec) (fs2 : Fs)
    (h : generate_health_map html df now fs = .ok (fn, spec, fs2)) :
    fn = "health_map_" ++ strftimeTs now ++ ".html" := by
  unfold generate_health_map at h
  cases h1 : seriesMean df "latitude" <;> rw [h1] at h <;> simp only [] at h
  case error => exact absurd h (by simp)
  cases h2 : seriesMean df "longitude" <;> rw [h2] at h <;> simp only [] at h
  case error => exact absurd h (by simp)
  cases h3 : colGet df "longitude" <;> rw [h3] at h <;> simp only [] at h
  case error => exact absurd h (by simp)
  cases h4 : colGet df "latitude" <;> rw [h4] at h <;> simp only [] at h
  case error => exact absurd h (by simp)
  cases h5 : List.mapM cellFloat _ <;> rw [h5] at h <;> simp only [] at h
  case error => exact absurd h (by simp)
  cases h6 : List.mapM cellFloat _ <;> rw [h6] at h <;> simp only [] at h
  case error => exact absurd h (by simp)
  cases h7 : List.mapM markerOf df.rows <;> rw [h7] at h <;> simp only [] at h
  case error => exact absurd h (by simp)
  simp only [Except.ok.injEq, Prod.mk.injEq] at h
  exact h.1.symm

/-- Helper: inverting a 200 response of `create_map` — it can only arise
from the fully successful branch, and the body then carries the map URL
built from the generated filename. -/
theorem create_map_success_inv (secure : String → String)
    (read_csv : String → Except String Df) (html : Df → MapSpec → String)
    (now : DateTime) (req : Request) (fs : Fs)
    (h : (create_map secure read_csv html now req fs).1.status = 200) :
    ∃ f df fn spec fs2,
      req.files.lookup "file" = some f ∧
      read_csv f.content = .ok df ∧
      generate_health_map html df now
          (fsWrite fs (pathJoin UPLOAD_FOLDER (secure f.filename)) (.file f.content))
        = .ok (fn, spec, fs2) ∧
      (create_map secure read_csv html now req fs).1.body = .okJson ("/api/maps/" ++ fn) := by
  unfold create_map at h ⊢
  cases hl : req.files.lookup "file" with
  | none => rw [hl] at h; simp at h
  | some f =>
    rw [hl] at h
    simp only [] at h ⊢
    by_cases hf : f.filename = ""
    · rw [if_pos hf] at h; simp at h
    · rw [if_neg hf] at h ⊢
      simp only [fsGet_fsWrite_self] at h ⊢
      cases hcsv : read_csv f.content with
      | error e => rw [hcsv] at h; simp at h
      | ok df =>
        rw [hcsv] at h
        simp only [] at h ⊢
        by_cases hall : (required_columns.all fun c => df.cols.contains c) = true
        · rw [if_pos hall] at h ⊢
          cases hgen : generate_health_map html df now
              (fsWrite fs (pathJoin UPLOAD_FOLDER (secure f.filename)) (.file f.content)) with
          | error e => rw [hgen] at h; simp at h
          | ok r =>
            obtain ⟨fn, spec, fs2⟩ := r
            rw [hgen] at h
            simp only [] at h ⊢
            exact ⟨f, df, fn, spec, fs2, rfl, hcsv, hgen, rfl⟩
        · rw [if_neg hall] at h; simp at h

/-- Claim C5: every successful generate-map request returns a map_url of
the exact form `/api/maps/health_map_<8 digits>_<6 digits>.html` — the
artifact name is `health_map_` plus the `YYYYMMDD_HHMMSS` timestamp plus
`.html`. -/
theorem success_map_url_format (secure : String → String)
    (read_csv : String → Except String Df) (html : Df → MapSpec → String)
    (now : DateTime) (req : Request) (fs : Fs)
    (h : (create_map secure read_csv html now req fs).1.status = 200) :
    ∃ d8 d6 : String,
      (create_map secure read_csv html now req fs).1.body
          = .okJson ("/api/maps/" ++ ("health_map_" ++ d8 ++ "_" ++ d6 ++ ".html")) ∧
      d8.length = 8 ∧ (∀ c ∈ d8.data, c.isDigit = true) ∧
      d6.length = 6 ∧ (∀ c ∈ d6.data, c.isDigit = true) := by
  obtain ⟨f, df, fn, spec, fs2, hl, hcsv, hgen, hbody⟩ :=
    create_map_success_inv secure read_csv html now req fs h
  have hfn := generate_filename html df now
    (fsWrite fs (pathJoin UPLOAD_FOLDER (secure f.filename)) (.file f.content)) fn spec fs2 hgen
  refine ⟨pad4 now.year ++ pad2 now.month ++ pad2 now.day,
          pad2 now.hour ++ pad2 now.minute ++ pad2 now.second, ?_, ?_, ?_, ?_, ?_⟩
  · rw [hbody, hfn]
    simp [strftimeTs, String.append_assoc]
  · rw [String.length_append, String.length_append, pad4_length, pad2_length, pad2_length]
  · intro c hc
    rw [String.data_append, String.data_append] at hc
    rcases List.mem_append.mp hc with hc2 | hc2
    · rcases List.mem_append.mp hc2 with hc3 | hc3
      · exact pad4_all_digits _ _ hc3
      · exact pad2_all_digits _ _ hc3
    · exact pad2_all_digits _ _ hc2
  · rw [String.length_append, String.length_append, pad2_length, pad2_length, pad2_length]
  · intro c hc
    rw [String.data_append, String.data_append] at hc
    rcases List.mem_append.mp hc with hc2 | hc2
    · rcases List.mem_append.mp hc2 with hc3 | hc3
      · exact pad2_all_digits _ _ hc3
      · exact pad2_all_digits _ _ hc3
    · exact pad2_all_digits _ _ hc2

theorem success_map_url_format_witness :
    ∃ d8 d6 : String,
      (create_map idSecure (csvConst dfAll) emptyHtml now0 reqOne []).1.body
          = .okJson ("/api/maps/" ++ ("health_map_" ++ d8 ++ "_" ++ d6 ++ ".html")) ∧
      d8.length = 8 ∧ (∀ c ∈ d8.data, c.isDigit = true) ∧
      d6.length = 6 ∧ (∀ c ∈ d6.data, c.isDigit = true) :=
  success_map_url_format idSecure (csvConst dfAll) emptyHtml now0 reqOne [] (by decide)

/-- Claim C4: for a non-empty validated table, the center the renderer
passes to `folium.Map` is the pair of arithmetic means of the latitude
and of the longitude values. -/
theorem map_center_is_mean (html : Df → MapSpec → String) (df : Df) (now : DateTime)
    (fs : Fs) (fn : String) (spec : MapSpec) (fs2 : Fs)
    (latC lonC : List Cell) (lats lons : List ℚ)
    (hlatC : colGet df "latitude" = .ok latC) (hlats : latC.mapM cellFloat = .ok lats)
    (hlonC : colGet df "longitude" = .ok lonC) (hlons : lonC.mapM cellFloat = .ok lons)
    (_hne : df.rows ≠ [])
    (hok : generate_health_map html df now fs = .ok (fn, spec, fs2)) :
    spec.location = (lats.sum / (lats.length : ℚ), lons.sum / (lons.length : ℚ)) := by
  have hm1 : seriesMean df "latitude" = .ok (lats.sum / (lats.length : ℚ)) := by
    unfold seriesMean; rw [hlatC]; simp only []; rw [hlats]
  have hm2 : seriesMean df "longitude" = .ok (lons.sum / (lons.length : ℚ)) := by
    unfold seriesMean; rw [hlonC]; simp only []; rw [hlons]
  unfold generate_health_map at hok
  rw [hm1] at hok; simp only [] at hok
  rw [hm2] at hok; simp only [] at hok
  rw [hlonC] at hok; simp only [] at hok
  rw [hlatC] at hok; simp only [] at hok
  rw [hlons] at hok; simp only [] at hok
  rw [hlats] at hok; simp only [] at hok
  cases h7 : List.mapM markerOf df.rows <;> rw [h7] at hok <;> simp only [] at hok
  case error => exact absurd hok (by simp)
  simp only [Except.ok.injEq, Prod.mk.injEq] at hok
  rw [← hok.2.1]

/-- The concrete artifact name generated for `df1` at `now0`. -/
def fnW : String := "health_map_20261012_030405.html"

/-- The concrete map-spec generated for `df1` at `now0`. -/
def specW : MapSpec :=
  { location := (40, -75)
    zoom_start := 4
    geometry := [(-75, 40)]
    choropleth :=
      { columns := ["region", "health_metric"]
        key_on := "feature.properties.region"
        fill_color := "YlOrRd"
        fill_opacity := 7 / 10
        line_opacity := 2 / 10
        legend_name := "Health Metric" }
    markers :=
      [{ location := (Cell.num 40, Cell.num (-75))
         popup := "Region: East<br> Health Metric: 5<br> Additional Info: N/A" }] }

/-- The concrete filesystem after generating `df1`'s map at `now0`. -/
def fsW : Fs := [("generated_maps/health_map_20261012_030405.html", .file "")]


theorem map_center_is_mean_witness :
    specW.location
      = ([(40 : ℚ)].sum / (([(40 : ℚ)].length : ℚ)),
         [(-75 : ℚ)].sum / (([(-75 : ℚ)].length : ℚ))) := by
  have hcl : colGet df1 "latitude" = .ok [Cell.num 40] := rfl
  have hco : colGet df1 "longitude" = .ok [Cell.num (-75)] := rfl
  have hfl : List.mapM cellFloat [Cell.num 40] = .ok [(40 : ℚ)] := rfl
  have hfo : List.mapM cellFloat [Cell.num (-75)] = .ok [(-75 : ℚ)] := rfl
  have hm1 : seriesMean df1 "latitude" = .ok 40 := by
    unfold seriesMean
    rw [hcl]; simp only []; rw [hfl]
    norm_num
  have hm2 : seriesMean df1 "longitude" = .ok (-75) := by
    unfold seriesMean
    rw [hco]; simp only []; rw [hfo]
    norm_num
  have hmk : List.mapM markerOf df1.rows
      = .ok [{ location := (Cell.num 40, Cell.num (-75))
               popup := "Region: East<br> Health Metric: 5<br> Additional Info: N/A" }] := by
    decide
  have hok : generate_health_map emptyHtml df1 now0 [] = .ok (fnW, specW, fsW) := by
    unfold generate_health_map
    rw [hm1]; simp only []
    rw [hm2]; simp only []
    rw [hco]; simp only []
    rw [hcl]; simp only []
    rw [hfo]; simp only []
    rw [hfl]; simp only []
    rw [hmk]; simp only []
    rfl
  exact map_center_is_mean emptyHtml df1 now0 [] fnW specW fsW
    [Cell.num 40] [Cell.num (-75)] [(40 : ℚ)] [(-75 : ℚ)]
    hcl hfl hco hfo (by decide) hok

end HealthMap
